import Mathlib

/-!
Verification of the WarpX momentum-injection subsystem
(`Source/Initialization/InjectorMomentum.H`).

The C++ code is shallowly embedded over the real numbers.  The random
engine (`amrex::RandomEngine`) is modelled as an infinite stream of
abstract draws: each call to `amrex::Random` consumes one draw from the
head of the stream, and each call to `amrex::RandomNormal(m, s, engine)`
consumes one draw `d` (interpreted as the standard normal variate the
generator produced) and returns `m + s * d`.  Unbounded rejection loops
are embedded with an explicit fuel parameter and return `none` when the
fuel runs out (the real loop would still be running); `amrex::Abort` is
modelled as an `abort` result carrying the message.
-/

noncomputable section

/-- Model of `amrex::RandomEngine`: the infinite stream of draws the
engine will produce, in order. -/
def Engine : Type := ℕ → ℝ

/-- Engine state after one draw has been consumed. -/
def shift (e : Engine) : Engine := fun k => e (k + 1)

/-- Engine state after `n` draws have been consumed. -/
def shiftN (n : ℕ) (e : Engine) : Engine := fun k => e (k + n)

theorem shiftN_shiftN (m n : ℕ) (e : Engine) :
    shiftN m (shiftN n e) = shiftN (m + n) e := by
  funext k
  simp [shiftN, Nat.add_assoc]

theorem shiftN_apply (n k : ℕ) (e : Engine) : shiftN n e k = e (k + n) := rfl

/-- Model of `amrex::RandomNormal(m, s, engine)` applied to the draw `d`
the engine produced: a normal variate with mean `m` and standard
deviation `s`. -/
def randomNormal (m s d : ℝ) : ℝ := m + s * d

/-- Model of `amrex::XDim3`. -/
structure XDim3 where
  x : ℝ
  y : ℝ
  z : ℝ

/-- View a `Fin 3`-indexed vector (the `amrex::Real u[3]` arrays of the
source) as an `XDim3`. -/
def xdimOfVec (u : Fin 3 → ℝ) : XDim3 := ⟨u 0, u 1, u 2⟩

/-- Component `i` of an `XDim3`, for comparing against `u[i]`. -/
def XDim3.comp (v : XDim3) : Fin 3 → ℝ :=
  fun i => if i = 0 then v.x else if i = 1 then v.y else v.z

/-- Result of one embedded sampler call: `val` is a normal return,
`abort` models reaching `amrex::Abort` with the given message,
`abortFallback` models the dispatcher's default branch (`amrex::Abort`
followed by returning the fallback value `{0,0,0}`), and `spin` means
the modelled rejection loop's fuel ran out (the C++ loop would still be
iterating). -/
inductive InjResult where
  | val : XDim3 → InjResult
  | abort : String → InjResult
  | abortFallback : String → XDim3 → InjResult
  | spin : InjResult

/-- Whether a result models reaching `amrex::Abort` inside a sampler
(rather than returning a value). -/
def InjResult.isAbort : InjResult → Bool
  | .abort _ => true
  | _ => false

/-! ## The flux-weighted speed kernel `generateGaussianFluxDist`
(`InjectorMomentum.H` lines 97-150), embedded branch by branch. -/

/-- Low-drift rejection loop of `generateGaussianFluxDist`
(lines 116-125): draw `xrand = 1 - Random()`, propose
`u = approx_u_th * sqrt(2*log(1/xrand))`, accept when a fresh uniform
draw is below `exp(-reject_prefactor*(u-u_th)*(u-u_th))`.  Two draws are
consumed per iteration; `none` when the fuel runs out. -/
def genFluxLow (u_th approx_u_th reject_prefactor : ℝ) :
    ℕ → Engine → Option (ℝ × Engine)
  | 0, _ => none
  | fuel + 1, e =>
    let xrand := 1 - e 0
    let u := approx_u_th * Real.sqrt (2 * Real.log (1 / xrand))
    if e 1 < Real.exp (-reject_prefactor * (u - u_th) * (u - u_th)) then
      some (u, shiftN 2 e)
    else
      genFluxLow u_th approx_u_th reject_prefactor fuel (shiftN 2 e)

/-- Inner redraw-while-negative loop of the high-drift branch
(lines 139-142): `u = -1; while (u < 0) u = RandomNormal(m, s, engine)`.
One draw per iteration. -/
def drawPositiveNormal (m s : ℝ) : ℕ → Engine → Option (ℝ × Engine)
  | 0, _ => none
  | fuel + 1, e =>
    let u := randomNormal m s (e 0)
    if u < 0 then drawPositiveNormal m s fuel (shift e) else some (u, shift e)

/-- High-drift rejection loop of `generateGaussianFluxDist`
(lines 134-146): propose a positive normal variate around `approx_u_m`
with spread `u_th`, accept when a fresh uniform draw is below
`u*inv_um*exp(1 - u*inv_um)`. -/
def genFluxHigh (u_th approx_u_m inv_um : ℝ) (innerFuel : ℕ) :
    ℕ → Engine → Option (ℝ × Engine)
  | 0, _ => none
  | fuel + 1, e =>
    match drawPositiveNormal approx_u_m u_th innerFuel e with
    | none => none
    | some (u, e1) =>
      if e1 0 < u * inv_um * Real.exp (1 - u * inv_um) then
        some (u, shift e1)
      else
        genFluxHigh u_th approx_u_m inv_um innerFuel fuel (shift e1)

/-- The kernel `generateGaussianFluxDist(u_m, u_th, engine)`
(lines 99-150): trivial branch for `u_th == 0`, low-drift branch for
`u_m < 0.6*u_th` with `approx_u_th = u_th/sqrt(1 - u_m/u_th)` and
`reject_prefactor = (u_m/u_th)/(2*u_th*u_th)`, high-drift branch
otherwise with `approx_u_m = u_m + u_th*u_th/u_m` and `inv_um = 1/u_m`. -/
def generateGaussianFluxDist (u_m u_th : ℝ) (fuel innerFuel : ℕ)
    (e : Engine) : Option (ℝ × Engine) :=
  if u_th = 0 then
    some (u_m, e)
  else if u_m < 0.6 * u_th then
    genFluxLow u_th (u_th / Real.sqrt (1 - u_m / u_th))
      (u_m / u_th / (2 * u_th * u_th)) fuel e
  else
    genFluxHigh u_th (u_m + u_th * u_th / u_m) (1 / u_m) innerFuel fuel e

/-! ## The same kernel written from the specification's words
(spec section 4.1), to be compared with the source embedding. -/

/-- Low-drift loop as the spec words it: proposal by inverse-CDF
`u_approx * sqrt(-2*ln xi)` with `xi` a uniform draw excluding 0 and
`u_approx = u_th/sqrt(1 - u_m/u_th)`; accept with probability
`exp(-prefactor*(u - u_th)^2)` where
`prefactor = (u_m/u_th)/(2*u_th^2)`. -/
def specFluxLow (u_m u_th : ℝ) : ℕ → Engine → Option (ℝ × Engine)
  | 0, _ => none
  | fuel + 1, e =>
    let xi := 1 - e 0
    let u := u_th / Real.sqrt (1 - u_m / u_th) * Real.sqrt (-(2 * Real.log xi))
    if e 1 < Real.exp (-(u_m / u_th / (2 * u_th ^ 2) * (u - u_th) ^ 2)) then
      some (u, shiftN 2 e)
    else
      specFluxLow u_m u_th fuel (shiftN 2 e)

/-- High-drift loop as the spec words it: propose from a normal
distribution centered at `u_m + u_th^2/u_m` with standard deviation
`u_th`, re-drawing while the proposal is negative; accept with
probability `(u/u_m)*exp(1 - u/u_m)`. -/
def specFluxHigh (u_m u_th : ℝ) (innerFuel : ℕ) :
    ℕ → Engine → Option (ℝ × Engine)
  | 0, _ => none
  | fuel + 1, e =>
    match drawPositiveNormal (u_m + u_th ^ 2 / u_m) u_th innerFuel e with
    | none => none
    | some (u, e1) =>
      if e1 0 < u / u_m * Real.exp (1 - u / u_m) then
        some (u, shift e1)
      else
        specFluxHigh u_m u_th innerFuel fuel (shift e1)

/-- The flux kernel as the spec describes it for `u_th > 0`: branch on
`u_m < 0.6*u_th` between the two loops above. -/
def specFluxDist (u_m u_th : ℝ) (fuel innerFuel : ℕ) (e : Engine) :
    Option (ℝ × Engine) :=
  if u_m < 0.6 * u_th then specFluxLow u_m u_th fuel e
  else specFluxHigh u_m u_th innerFuel fuel e

theorem genFluxLow_eq_spec (u_m u_th : ℝ) :
    ∀ (fuel : ℕ) (e : Engine),
      genFluxLow u_th (u_th / Real.sqrt (1 - u_m / u_th))
        (u_m / u_th / (2 * u_th * u_th)) fuel e =
      specFluxLow u_m u_th fuel e := by
  intro fuel
  induction fuel with
  | zero => intro e; rfl
  | succ n ih =>
    intro e
    have harg : (2 : ℝ) * Real.log (1 / (1 - e 0)) =
        -(2 * Real.log (1 - e 0)) := by
      rw [one_div, Real.log_inv]; ring
    have hexp : ∀ u : ℝ,
        -(u_m / u_th / (2 * u_th * u_th)) * (u - u_th) * (u - u_th) =
        -(u_m / u_th / (2 * u_th ^ 2) * (u - u_th) ^ 2) := by
      intro u; ring
    simp only [genFluxLow, specFluxLow, harg, hexp, ih]

theorem genFluxHigh_eq_spec (u_m u_th : ℝ) (innerFuel : ℕ) :
    ∀ (fuel : ℕ) (e : Engine),
      genFluxHigh u_th (u_m + u_th * u_th / u_m) (1 / u_m) innerFuel fuel e =
      specFluxHigh u_m u_th innerFuel fuel e := by
  intro fuel
  induction fuel with
  | zero => intro e; rfl
  | succ n ih =>
    intro e
    have happrox : u_m + u_th * u_th / u_m = u_m + u_th ^ 2 / u_m := by ring
    have hacc : ∀ u : ℝ, u * (1 / u_m) = u / u_m := by
      intro u; rw [mul_one_div]
    have ih2 : ∀ e2 : Engine,
        genFluxHigh u_th (u_m + u_th ^ 2 / u_m) (1 / u_m) innerFuel n e2 =
        specFluxHigh u_m u_th innerFuel n e2 := by
      intro e2; rw [← happrox]; exact ih e2
    simp only [genFluxHigh, specFluxHigh, happrox, hacc, ih2]

/-- C1: for every `u_m` and every `u_th > 0`, `generateGaussianFluxDist`
selects its branch by whether `u_m < 0.6*u_th`; the low-drift branch
proposes by inverse-CDF `u_approx*sqrt(-2*ln xi)` with
`u_approx = u_th/sqrt(1 - u_m/u_th)` and accepts with probability
`exp(-prefactor*(u - u_th)^2)`, `prefactor = (u_m/u_th)/(2*u_th^2)`; the
high-drift branch proposes from a normal centered at `u_m + u_th^2/u_m`
with standard deviation `u_th`, re-drawing while negative, and accepts
with probability `(u/u_m)*exp(1 - u/u_m)`; each branch repeats until
acceptance and returns the accepted value.  Stated as: the source
embedding coincides with the kernel written from the spec's words. -/
theorem generateGaussianFluxDist_refines_spec (u_m u_th : ℝ)
    (h : 0 < u_th) (fuel innerFuel : ℕ) (e : Engine) :
    generateGaussianFluxDist u_m u_th fuel innerFuel e =
      specFluxDist u_m u_th fuel innerFuel e := by
  unfold generateGaussianFluxDist specFluxDist
  rw [if_neg (ne_of_gt h)]
  by_cases hb : u_m < 0.6 * u_th
  · rw [if_pos hb, if_pos hb, genFluxLow_eq_spec]
  · rw [if_neg hb, if_neg hb, genFluxHigh_eq_spec]

theorem generateGaussianFluxDist_refines_spec_witness :
    (0 : ℝ) < 1 ∧
      generateGaussianFluxDist 0 1 2 2 (fun _ => 1 / 2) =
        specFluxDist 0 1 2 2 (fun _ => 1 / 2) :=
  ⟨by norm_num, generateGaussianFluxDist_refines_spec 0 1 (by norm_num) 2 2 _⟩

/-! ## Relativistic samplers: Boltzmann and Juttner
(`InjectorMomentum.H` lines 267-446). -/

/-- External temperature field evaluator (`GetTemperature`): a scalar
function of position, out of scope of this core (spec section 6). -/
structure GetTemperature where
  f : ℝ → ℝ → ℝ → ℝ

/-- External velocity field evaluator (`GetVelocity`): a scalar function
of position plus a fixed boost axis `direction()` (spec section 6). -/
structure GetVelocity where
  f : ℝ → ℝ → ℝ → ℝ
  direction : Fin 3

/-- Flip + Lorentz-boost block shared verbatim by the Boltzmann sampler
(lines 315-322) and the Juttner sampler (lines 403-423): with
probability `-beta*u[dir]/gamma` (compared against one fresh uniform
draw) negate `u[dir]`, then replace `u[dir]` by
`1/sqrt(1-beta*beta)*(u[dir] + gamma*beta)`. -/
def flipBoost (beta : ℝ) (dir : Fin 3) (u : Fin 3 → ℝ) (gamma : ℝ)
    (e : Engine) : (Fin 3 → ℝ) × Engine :=
  let xrand := e 0
  let u1 := if -beta * u dir / gamma > xrand
    then Function.update u dir (-(u dir)) else u
  (Function.update u1 dir (1 / Real.sqrt (1 - beta * beta) * (u1 dir + gamma * beta)),
    shift e)

/-- The three local-frame normal draws of the Boltzmann sampler
(lines 298-301): `u[dir]`, `u[(dir+1)%3]`, `u[(dir+2)%3]` are
independent normal variates with mean 0 and standard deviation `vave`,
drawn in that order. -/
def boltzLocalSample (vave : ℝ) (dir : Fin 3) (e : Engine) : Fin 3 → ℝ :=
  Function.update
    (Function.update
      (Function.update (fun _ => 0) dir (randomNormal 0 vave (e 0)))
      (dir + 1) (randomNormal 0 vave (e 1)))
    (dir + 2) (randomNormal 0 vave (e 2))

/-- Embeds `InjectorMomentumBoltzmann` (lines 267-345): holds the two external
field evaluators. -/
structure InjectorMomentumBoltzmann where
  velocity : GetVelocity
  temperature : GetTemperature

/-- Embeds `InjectorMomentumBoltzmann::getMomentum` (lines 276-326): abort on
`theta < 0` and on `beta <= -1 || beta >= 1`; otherwise draw the three
local normal components with spread `vave = sqrt(theta)`, compute
`gamma = sqrt(1 + u[0]*u[0] + u[1]*u[1] + u[2]*u[2])`, and apply the
flip + Lorentz-boost block. -/
def InjectorMomentumBoltzmann.getMomentum (s : InjectorMomentumBoltzmann)
    (x y z : ℝ) (e : Engine) : InjResult :=
  let theta := s.temperature.f x y z
  if theta < 0 then
    .abort "Negative temperature parameter theta encountered, which is not allowed"
  else
    let beta := s.velocity.f x y z
    if beta ≤ -1 ∨ 1 ≤ beta then
      .abort "beta = v/c magnitude greater than or equal to 1"
    else
      let vave := Real.sqrt theta
      let dir := s.velocity.direction
      let u := boltzLocalSample vave dir e
      let gamma := Real.sqrt (1 + (u 0 * u 0 + u 1 * u 1 + u 2 * u 2))
      .val (xdimOfVec (flipBoost beta dir u gamma (shiftN 3 e)).1)

/-- Embeds `InjectorMomentumBoltzmann::getBulkMomentum` (lines 328-340): zero
vector except `u[dir] = gamma*beta` with `gamma = 1/sqrt(1-beta*beta)`;
the temperature evaluator is never consulted. -/
def InjectorMomentumBoltzmann.getBulkMomentum
    (s : InjectorMomentumBoltzmann) (x y z : ℝ) : XDim3 :=
  let beta := s.velocity.f x y z
  let dir := s.velocity.direction
  let gamma := 1 / Real.sqrt (1 - beta * beta)
  xdimOfVec (Function.update (fun _ => 0) dir (gamma * beta))

/-- Sobol rejection loop of the Juttner sampler (lines 381-392), on the
state `(u[dir], gamma, x1)` initialized to `(0, 0, 0)`: while
`u[dir] - gamma <= x1`, set `u[dir] = -theta*log(R1*R2*R3)`,
`gamma = sqrt(1 + u[dir]*u[dir])`, `x1 = theta*log(R4)` (four draws per
iteration); on exit return the accepted state and remaining engine. -/
def sobolLoop (theta : ℝ) : ℕ → ℝ → ℝ → ℝ → Engine →
    Option (ℝ × ℝ × ℝ × Engine)
  | 0, u, g, x1, e => if u - g ≤ x1 then none else some (u, g, x1, e)
  | fuel + 1, u, g, x1, e =>
    if u - g ≤ x1 then
      let u1 := -theta * Real.log (e 0 * e 1 * e 2)
      sobolLoop theta fuel u1 (Real.sqrt (1 + u1 * u1))
        (theta * Real.log (e 3)) (shiftN 4 e)
    else some (u, g, x1, e)

/-- Assembly of the Juttner momentum vector after the Sobol loop
(lines 395-402), mirroring the source's assignment order: draw
`x1, x2`, set `u[(dir+1)%3]` and `u[(dir+2)%3]` to the polar spread with
`sin` and `cos` of `2*pi*x2`, then overwrite `u[dir]` with
`u[dir]*(2*x1 - 1)`. -/
def juttnerAssemble (uax : ℝ) (x1 x2 : ℝ) (dir : Fin 3) : Fin 3 → ℝ :=
  Function.update
    (Function.update
      (Function.update (fun _ => 0) dir uax)
      (dir + 1) (2 * uax * Real.sqrt (x1 * (1 - x1)) * Real.sin (2 * Real.pi * x2)))
    (dir + 2) (2 * uax * Real.sqrt (x1 * (1 - x1)) * Real.cos (2 * Real.pi * x2))
  |> fun u => Function.update u dir (uax * (2 * x1 - 1))

/-- The same assembly written from the spec's words: transverse
components `2*u_axis*sqrt(x1*(1-x1))*sin(2*pi*x2)` and
`2*u_axis*sqrt(x1*(1-x1))*cos(2*pi*x2)`, boost-axis component
`u_axis*(2*x1 - 1)`. -/
def juttnerSpread (uax : ℝ) (x1 x2 : ℝ) (dir : Fin 3) : Fin 3 → ℝ :=
  fun j =>
    if j = dir + 1 then 2 * uax * Real.sqrt (x1 * (1 - x1)) * Real.sin (2 * Real.pi * x2)
    else if j = dir + 2 then 2 * uax * Real.sqrt (x1 * (1 - x1)) * Real.cos (2 * Real.pi * x2)
    else uax * (2 * x1 - 1)

/-- Embeds `InjectorMomentumJuttner` (lines 350-446): holds the two external
field evaluators. -/
structure InjectorMomentumJuttner where
  velocity : GetVelocity
  temperature : GetTemperature

/-- Embeds `InjectorMomentumJuttner::getMomentum` (lines 359-427): abort on
`theta < 0.1` and on `beta <= -1 || beta >= 1`; otherwise run the Sobol
loop, assemble the vector from two fresh uniform draws, and apply the
flip + Lorentz-boost block (which consumes one more draw). -/
def InjectorMomentumJuttner.getMomentum (s : InjectorMomentumJuttner)
    (x y z : ℝ) (fuel : ℕ) (e : Engine) : InjResult :=
  let theta := s.temperature.f x y z
  if theta < 0.1 then
    .abort "Temeprature parameter theta is less than minimum 0.1 allowed for Maxwell-Juttner"
  else
    let beta := s.velocity.f x y z
    if beta ≤ -1 ∨ 1 ≤ beta then
      .abort "beta = v/c magnitude greater than or equal to 1"
    else
      let dir := s.velocity.direction
      match sobolLoop theta fuel 0 0 0 e with
      | none => .spin
      | some (uax, gamma, _x1, e1) =>
        let u := juttnerAssemble uax (e1 0) (e1 1) dir
        .val (xdimOfVec (flipBoost beta dir u gamma (shiftN 2 e1)).1)

/-- Embeds `InjectorMomentumJuttner::getBulkMomentum` (lines 429-441):
textually the same computation as the Boltzmann bulk query. -/
def InjectorMomentumJuttner.getBulkMomentum (s : InjectorMomentumJuttner)
    (x y z : ℝ) : XDim3 :=
  let beta := s.velocity.f x y z
  let dir := s.velocity.direction
  let gamma := 1 / Real.sqrt (1 - beta * beta)
  xdimOfVec (Function.update (fun _ => 0) dir (gamma * beta))

/-! ## The remaining concrete samplers
(`InjectorMomentum.H` lines 32-263 and 455-505). -/

/-- Embeds `InjectorMomentumConstant` (lines 32-54). -/
structure InjectorMomentumConstant where
  m_ux : ℝ
  m_uy : ℝ
  m_uz : ℝ

/-- Embeds `InjectorMomentumConstant::getMomentum` (lines 37-43). -/
def InjectorMomentumConstant.getMomentum (s : InjectorMomentumConstant)
    (_x _y _z : ℝ) (_e : Engine) : XDim3 :=
  ⟨s.m_ux, s.m_uy, s.m_uz⟩

/-- Embeds `InjectorMomentumConstant::getBulkMomentum` (lines 45-50). -/
def InjectorMomentumConstant.getBulkMomentum (s : InjectorMomentumConstant)
    (_x _y _z : ℝ) : XDim3 :=
  ⟨s.m_ux, s.m_uy, s.m_uz⟩

/-- Embeds `InjectorMomentumGaussian` (lines 58-87). -/
structure InjectorMomentumGaussian where
  m_ux_m : ℝ
  m_uy_m : ℝ
  m_uz_m : ℝ
  m_ux_th : ℝ
  m_uy_th : ℝ
  m_uz_th : ℝ

/-- Embeds `InjectorMomentumGaussian::getMomentum` (lines 67-75): three
independent normal draws, in x, y, z order. -/
def InjectorMomentumGaussian.getMomentum (s : InjectorMomentumGaussian)
    (_x _y _z : ℝ) (e : Engine) : XDim3 :=
  ⟨randomNormal s.m_ux_m s.m_ux_th (e 0),
   randomNormal s.m_uy_m s.m_uy_th (e 1),
   randomNormal s.m_uz_m s.m_uz_th (e 2)⟩

/-- Embeds `InjectorMomentumGaussian::getBulkMomentum` (lines 77-82). -/
def InjectorMomentumGaussian.getBulkMomentum (s : InjectorMomentumGaussian)
    (_x _y _z : ℝ) : XDim3 :=
  ⟨s.m_ux_m, s.m_uy_m, s.m_uz_m⟩

/-- Embeds `InjectorMomentumGaussianFlux` (lines 157-220): the six Gaussian
parameters plus the flux-normal axis and the flux-direction sign, both
stored as machine integers in the source. -/
structure InjectorMomentumGaussianFlux where
  m_ux_m : ℝ
  m_uy_m : ℝ
  m_uz_m : ℝ
  m_ux_th : ℝ
  m_uy_th : ℝ
  m_uz_th : ℝ
  m_flux_normal_axis : ℤ
  m_flux_direction : ℤ

/-- The `InjectorMomentumGaussianFlux` constructor (lines 159-175):
`raise_error` when the central momentum along the flux-normal axis is
negative, in which case `WARPX_ALWAYS_ASSERT_WITH_MESSAGE` aborts;
otherwise the members are stored. -/
def mkInjectorMomentumGaussianFlux (a_ux_m a_uy_m a_uz_m a_ux_th a_uy_th
    a_uz_th : ℝ) (a_flux_normal_axis a_flux_direction : ℤ) :
    Except String InjectorMomentumGaussianFlux :=
  if (a_flux_normal_axis = 0 ∧ a_ux_m < 0) ∨
     (a_flux_normal_axis = 1 ∧ a_uy_m < 0) ∨
     (a_flux_normal_axis = 2 ∧ a_uz_m < 0) then
    .error "When using the gaussianflux distribution, the central momentum along the flux axis must be positive or zero."
  else
    .ok ⟨a_ux_m, a_uy_m, a_uz_m, a_ux_th, a_uy_th, a_uz_th,
         a_flux_normal_axis, a_flux_direction⟩

/-- Embeds `InjectorMomentumGaussianFlux::getMomentum` (lines 177-206): run the
flux kernel along the flux-normal axis, flip the sign when
`m_flux_direction < 0`, and fill the other two components with normal
draws (evaluated in x, y, z order, each consuming one draw). -/
def InjectorMomentumGaussianFlux.getMomentum
    (s : InjectorMomentumGaussianFlux) (_x _y _z : ℝ) (fuel innerFuel : ℕ)
    (e : Engine) : InjResult :=
  let um_th : ℝ × ℝ :=
    if s.m_flux_normal_axis = 0 then (s.m_ux_m, s.m_ux_th)
    else if s.m_flux_normal_axis = 1 then (s.m_uy_m, s.m_uy_th)
    else if s.m_flux_normal_axis = 2 then (s.m_uz_m, s.m_uz_th)
    else (0, 0)
  match generateGaussianFluxDist um_th.1 um_th.2 fuel innerFuel e with
  | none => .spin
  | some (u0, e1) =>
    let u := if s.m_flux_direction < 0 then -u0 else u0
    let px : ℝ × Engine :=
      if s.m_flux_normal_axis = 0 then (u, e1)
      else (randomNormal s.m_ux_m s.m_ux_th (e1 0), shift e1)
    let py : ℝ × Engine :=
      if s.m_flux_normal_axis = 1 then (u, px.2)
      else (randomNormal s.m_uy_m s.m_uy_th (px.2 0), shift px.2)
    let pz : ℝ × Engine :=
      if s.m_flux_normal_axis = 2 then (u, py.2)
      else (randomNormal s.m_uz_m s.m_uz_th (py.2 0), shift py.2)
    .val ⟨px.1, py.1, pz.1⟩

/-- Embeds `InjectorMomentumGaussianFlux::getBulkMomentum` (lines 208-213):
the three configured central values, with no flux weighting and no
`m_flux_direction` sign. -/
def InjectorMomentumGaussianFlux.getBulkMomentum
    (s : InjectorMomentumGaussianFlux) (_x _y _z : ℝ) : XDim3 :=
  ⟨s.m_ux_m, s.m_uy_m, s.m_uz_m⟩

/-- Embeds `InjectorMomentumUniform` (lines 225-263): per-axis min/max plus the
midpoints and ranges cached by the constructor. -/
structure InjectorMomentumUniform where
  m_ux_min : ℝ
  m_uy_min : ℝ
  m_uz_min : ℝ
  m_ux_max : ℝ
  m_uy_max : ℝ
  m_uz_max : ℝ
  m_ux_h : ℝ
  m_uy_h : ℝ
  m_uz_h : ℝ
  m_Dux : ℝ
  m_Duy : ℝ
  m_Duz : ℝ

/-- The `InjectorMomentumUniform` constructor (lines 227-239): caches
`D = max - min` and `h = 0.5*(max + min)` per axis. -/
def mkInjectorMomentumUniform (a_ux_min a_uy_min a_uz_min a_ux_max
    a_uy_max a_uz_max : ℝ) : InjectorMomentumUniform :=
  ⟨a_ux_min, a_uy_min, a_uz_min, a_ux_max, a_uy_max, a_uz_max,
   0.5 * (a_ux_max + a_ux_min), 0.5 * (a_uy_max + a_uy_min),
   0.5 * (a_uz_max + a_uz_min),
   a_ux_max - a_ux_min, a_uy_max - a_uy_min, a_uz_max - a_uz_min⟩

/-- Embeds `InjectorMomentumUniform::getMomentum` (lines 241-249). -/
def InjectorMomentumUniform.getMomentum (s : InjectorMomentumUniform)
    (_x _y _z : ℝ) (e : Engine) : XDim3 :=
  ⟨s.m_ux_min + e 0 * s.m_Dux,
   s.m_uy_min + e 1 * s.m_Duy,
   s.m_uz_min + e 2 * s.m_Duz⟩

/-- Embeds `InjectorMomentumUniform::getBulkMomentum` (lines 251-256). -/
def InjectorMomentumUniform.getBulkMomentum (s : InjectorMomentumUniform)
    (_x _y _z : ℝ) : XDim3 :=
  ⟨s.m_ux_h, s.m_uy_h, s.m_uz_h⟩

/-- Embeds `InjectorMomentumRadialExpansion` (lines 455-478). -/
structure InjectorMomentumRadialExpansion where
  u_over_r : ℝ

/-- Embeds `InjectorMomentumRadialExpansion::getMomentum` (lines 461-467). -/
def InjectorMomentumRadialExpansion.getMomentum
    (s : InjectorMomentumRadialExpansion) (x y z : ℝ) (_e : Engine) : XDim3 :=
  ⟨x * s.u_over_r, y * s.u_over_r, z * s.u_over_r⟩

/-- Embeds `InjectorMomentumRadialExpansion::getBulkMomentum` (lines 469-474). -/
def InjectorMomentumRadialExpansion.getBulkMomentum
    (s : InjectorMomentumRadialExpansion) (x y z : ℝ) : XDim3 :=
  ⟨x * s.u_over_r, y * s.u_over_r, z * s.u_over_r⟩

/-- Embeds `InjectorMomentumParser` (lines 481-505): the three
`amrex::ParserExecutor<3>` handles are opaque callables
`f(x,y,z) -> real` (spec section 6), modelled as plain functions. -/
structure InjectorMomentumParser where
  m_ux_exec : ℝ → ℝ → ℝ → ℝ
  m_uy_exec : ℝ → ℝ → ℝ → ℝ
  m_uz_exec : ℝ → ℝ → ℝ → ℝ

/-- Embeds `InjectorMomentumParser::getMomentum` (lines 489-495). -/
def InjectorMomentumParser.getMomentum (s : InjectorMomentumParser)
    (x y z : ℝ) (_e : Engine) : XDim3 :=
  ⟨s.m_ux_exec x y z, s.m_uy_exec x y z, s.m_uz_exec x y z⟩

/-- Embeds `InjectorMomentumParser::getBulkMomentum` (lines 497-502). -/
def InjectorMomentumParser.getBulkMomentum (s : InjectorMomentumParser)
    (x y z : ℝ) : XDim3 :=
  ⟨s.m_ux_exec x y z, s.m_uy_exec x y z, s.m_uz_exec x y z⟩

/-! ## The tagged selector `InjectorMomentum`
(`InjectorMomentum.H` lines 517-738). -/

/-- The union `InjectorMomentum::Object` (lines 694-736): exactly one
concrete sampler is stored. -/
inductive InjObject where
  | constant : InjectorMomentumConstant → InjObject
  | gaussian : InjectorMomentumGaussian → InjObject
  | gaussianflux : InjectorMomentumGaussianFlux → InjObject
  | uniform : InjectorMomentumUniform → InjObject
  | boltzmann : InjectorMomentumBoltzmann → InjObject
  | juttner : InjectorMomentumJuttner → InjObject
  | radial_expansion : InjectorMomentumRadialExpansion → InjObject
  | parser : InjectorMomentumParser → InjObject

/-- Embeds `InjectorMomentum` (lines 517-738): the kind tag (the scoped enum
`Type { constant, gaussian, gaussianflux, uniform, boltzmann, juttner,
radial_expansion, parser }`, with underlying integer values 0-7 in
declaration order) together with the stored union.  The tag is kept as a
machine integer so that unrecognized tag values are representable; the
source's invariant (spec section 3) is that the active union arm matches
the tag.  Reading an inactive union arm is undefined behavior in C++ and
is modelled by the same fatal default branch as an unrecognized tag. -/
structure InjectorMomentum where
  type : ℤ
  object : InjObject

/-- Embeds `InjectorMomentum::getMomentum` (lines 591-636): switch on the kind
tag, forwarding the arguments to the stored sampler; the `default`
branch calls `amrex::Abort("InjectorMomentum: unknown type")` and
returns `{0.0, 0.0, 0.0}`. -/
def InjectorMomentum.getMomentum (m : InjectorMomentum) (x y z : ℝ)
    (fuel innerFuel : ℕ) (e : Engine) : InjResult :=
  if m.type = 7 then
    match m.object with
    | .parser p => .val (p.getMomentum x y z e)
    | _ => .abortFallback "InjectorMomentum: unknown type" ⟨0, 0, 0⟩
  else if m.type = 1 then
    match m.object with
    | .gaussian g => .val (g.getMomentum x y z e)
    | _ => .abortFallback "InjectorMomentum: unknown type" ⟨0, 0, 0⟩
  else if m.type = 2 then
    match m.object with
    | .gaussianflux g => g.getMomentum x y z fuel innerFuel e
    | _ => .abortFallback "InjectorMomentum: unknown type" ⟨0, 0, 0⟩
  else if m.type = 3 then
    match m.object with
    | .uniform u => .val (u.getMomentum x y z e)
    | _ => .abortFallback "InjectorMomentum: unknown type" ⟨0, 0, 0⟩
  else if m.type = 4 then
    match m.object with
    | .boltzmann b => b.getMomentum x y z e
    | _ => .abortFallback "InjectorMomentum: unknown type" ⟨0, 0, 0⟩
  else if m.type = 5 then
    match m.object with
    | .juttner j => j.getMomentum x y z fuel e
    | _ => .abortFallback "InjectorMomentum: unknown type" ⟨0, 0, 0⟩
  else if m.type = 0 then
    match m.object with
    | .constant c => .val (c.getMomentum x y z e)
    | _ => .abortFallback "InjectorMomentum: unknown type" ⟨0, 0, 0⟩
  else if m.type = 6 then
    match m.object with
    | .radial_expansion r => .val (r.getMomentum x y z e)
    | _ => .abortFallback "InjectorMomentum: unknown type" ⟨0, 0, 0⟩
  else
    .abortFallback "InjectorMomentum: unknown type" ⟨0, 0, 0⟩

/-- Embeds `InjectorMomentum::getBulkMomentum` (lines 640-684): same dispatch
for the mean query. -/
def InjectorMomentum.getBulkMomentum (m : InjectorMomentum) (x y z : ℝ) :
    InjResult :=
  if m.type = 7 then
    match m.object with
    | .parser p => .val (p.getBulkMomentum x y z)
    | _ => .abortFallback "InjectorMomentum: unknown type" ⟨0, 0, 0⟩
  else if m.type = 1 then
    match m.object with
    | .gaussian g => .val (g.getBulkMomentum x y z)
    | _ => .abortFallback "InjectorMomentum: unknown type" ⟨0, 0, 0⟩
  else if m.type = 2 then
    match m.object with
    | .gaussianflux g => .val (g.getBulkMomentum x y z)
    | _ => .abortFallback "InjectorMomentum: unknown type" ⟨0, 0, 0⟩
  else if m.type = 3 then
    match m.object with
    | .uniform u => .val (u.getBulkMomentum x y z)
    | _ => .abortFallback "InjectorMomentum: unknown type" ⟨0, 0, 0⟩
  else if m.type = 4 then
    match m.object with
    | .boltzmann b => .val (b.getBulkMomentum x y z)
    | _ => .abortFallback "InjectorMomentum: unknown type" ⟨0, 0, 0⟩
  else if m.type = 5 then
    match m.object with
    | .juttner j => .val (j.getBulkMomentum x y z)
    | _ => .abortFallback "InjectorMomentum: unknown type" ⟨0, 0, 0⟩
  else if m.type = 0 then
    match m.object with
    | .constant c => .val (c.getBulkMomentum x y z)
    | _ => .abortFallback "InjectorMomentum: unknown type" ⟨0, 0, 0⟩
  else if m.type = 6 then
    match m.object with
    | .radial_expansion r => .val (r.getBulkMomentum x y z)
    | _ => .abortFallback "InjectorMomentum: unknown type" ⟨0, 0, 0⟩
  else
    .abortFallback "InjectorMomentum: unknown type" ⟨0, 0, 0⟩

/-! ## IEEE special-value model for the bulk-drift formula
(used for claim C10). -/

/-- An IEEE-style extended value: a finite real (finite arithmetic is
taken exact), a signed infinity, or NaN. -/
inductive RealExt where
  | fin : ℝ → RealExt
  | inf : RealExt
  | ninf : RealExt
  | nan : RealExt

/-- IEEE behavior of `std::sqrt`: NaN on negative finite input and on
negative infinity. -/
def RealExt.esqrt : RealExt → RealExt
  | .fin a => if a < 0 then .nan else .fin (Real.sqrt a)
  | .inf => .inf
  | .ninf => .nan
  | .nan => .nan

/-- IEEE behavior of `1.0/x` (for the nonnegative-zero inputs arising
here): infinity on zero, zero on infinities, NaN on NaN. -/
def RealExt.einv : RealExt → RealExt
  | .fin a => if a = 0 then .inf else .fin a⁻¹
  | .inf => .fin 0
  | .ninf => .fin 0
  | .nan => .nan

/-- IEEE multiplication on extended values. -/
def RealExt.emul : RealExt → RealExt → RealExt
  | .nan, _ => .nan
  | _, .nan => .nan
  | .fin a, .fin b => .fin (a * b)
  | .inf, .fin b => if b = 0 then .nan else if 0 < b then .inf else .ninf
  | .fin a, .inf => if a = 0 then .nan else if 0 < a then .inf else .ninf
  | .ninf, .fin b => if b = 0 then .nan else if 0 < b then .ninf else .inf
  | .fin a, .ninf => if a = 0 then .nan else if 0 < a then .ninf else .inf
  | .inf, .inf => .inf
  | .inf, .ninf => .ninf
  | .ninf, .inf => .ninf
  | .ninf, .ninf => .inf

/-- Whether an extended value is finite. -/
def RealExt.isFinite : RealExt → Prop
  | .fin _ => True
  | _ => False

/-- The bulk-drift vector of `getBulkMomentum` (Boltzmann lines 333-338,
Juttner lines 434-439) computed in the IEEE special-value model: zero
components except `u[dir] = (1/sqrt(1 - beta*beta)) * beta`. -/
def bulkDriftExt (beta : ℝ) (dir : Fin 3) : Fin 3 → RealExt :=
  Function.update (fun _ => RealExt.fin 0) dir
    (RealExt.emul (RealExt.einv (RealExt.esqrt (RealExt.fin (1 - beta * beta))))
      (RealExt.fin beta))

/-! ## Helper lemmas. -/

theorem comp_xdimOfVec (u : Fin 3 → ℝ) (i : Fin 3) :
    (xdimOfVec u).comp i = u i := by
  fin_cases i <;> rfl

theorem flipBoost_beta_zero (dir : Fin 3) (u : Fin 3 → ℝ) (gamma : ℝ)
    (e : Engine) (h : 0 ≤ e 0) : (flipBoost 0 dir u gamma e).1 = u := by
  simp only [flipBoost]
  have hcond : ¬ (-(0:ℝ) * u dir / gamma > e 0) := by
    simp only [neg_zero, zero_mul, zero_div, gt_iff_lt, not_lt]
    exact h
  rw [if_neg hcond]
  have hval : (1:ℝ) / Real.sqrt (1 - 0 * 0) * (u dir + gamma * 0) = u dir := by
    norm_num [Real.sqrt_one]
  rw [hval, Function.update_eq_self]

theorem juttnerAssemble_eq_spread (uax x1 x2 : ℝ) (dir : Fin 3) :
    juttnerAssemble uax x1 x2 dir = juttnerSpread uax x1 x2 dir := by
  funext j
  fin_cases dir <;> fin_cases j <;>
    simp [juttnerAssemble, juttnerSpread, Function.update_apply]

/-! ## Claim theorems. -/

/-- C5: for every central value `u_m` and every engine state, the kernel
called with spread `u_th = 0` returns exactly `u_m` with the engine
unchanged (no random draw is consumed), through the dedicated
`u_th == 0` branch. -/
theorem generateGaussianFluxDist_zero_spread (u_m : ℝ) (fuel innerFuel : ℕ)
    (e : Engine) :
    generateGaussianFluxDist u_m 0 fuel innerFuel e = some (u_m, e) := by
  unfold generateGaussianFluxDist
  rw [if_pos rfl]

/-- C3: the sample operation of the Boltzmann sampler aborts (rather
than returning a value) exactly when the temperature evaluator yields
`theta < 0` or the velocity evaluator yields `beta <= -1` or
`beta >= 1`; the Juttner sampler's sample aborts exactly when
`theta < 0.1` or `beta <= -1` or `beta >= 1`; in particular Boltzmann's
sample at a position where the temperature evaluator returns `-1.0`
aborts. -/
theorem relativistic_sample_abort_conditions :
    (∀ (s : InjectorMomentumBoltzmann) (x y z : ℝ) (e : Engine),
      (s.getMomentum x y z e).isAbort = true ↔
        (s.temperature.f x y z < 0 ∨ s.velocity.f x y z ≤ -1 ∨
          1 ≤ s.velocity.f x y z))
    ∧ (∀ (s : InjectorMomentumJuttner) (x y z : ℝ) (fuel : ℕ) (e : Engine),
      (s.getMomentum x y z fuel e).isAbort = true ↔
        (s.temperature.f x y z < 0.1 ∨ s.velocity.f x y z ≤ -1 ∨
          1 ≤ s.velocity.f x y z))
    ∧ (∀ (v : GetVelocity) (x y z : ℝ) (e : Engine),
      InjectorMomentumBoltzmann.getMomentum ⟨v, ⟨fun _ _ _ => -1⟩⟩ x y z e =
        .abort "Negative temperature parameter theta encountered, which is not allowed") := by
  refine ⟨?_, ?_, ?_⟩
  · intro s x y z e
    simp only [InjectorMomentumBoltzmann.getMomentum]
    split_ifs with h1 h2
    · exact iff_of_true rfl (Or.inl h1)
    · exact iff_of_true rfl (Or.inr h2)
    · exact iff_of_false (by simp [InjResult.isAbort]) (by tauto)
  · intro s x y z fuel e
    simp only [InjectorMomentumJuttner.getMomentum]
    split_ifs with h1 h2
    · exact iff_of_true rfl (Or.inl h1)
    · exact iff_of_true rfl (Or.inr h2)
    · cases hs : sobolLoop (s.temperature.f x y z) fuel 0 0 0 e with
      | none => exact iff_of_false (by simp [InjResult.isAbort]) (by tauto)
      | some r =>
        obtain ⟨uax, gamma, x1f, e1⟩ := r
        exact iff_of_false (by simp [InjResult.isAbort]) (by tauto)
  · intro v x y z e
    simp only [InjectorMomentumBoltzmann.getMomentum]
    rw [if_pos (by norm_num : (-1:ℝ) < 0)]

/-- C4: with `beta = 0` the flip step never changes the boost-axis
component (its trigger probability `-beta*u[dir]/gamma` is `0`, never
exceeding a uniform draw) and the Lorentz boost is the identity, for
every locally sampled momentum vector, so both the Boltzmann and the
Juttner sampler return the pre-transform sampled vector unchanged. -/
theorem beta_zero_transform_is_identity :
    (∀ (dir : Fin 3) (u : Fin 3 → ℝ) (gamma : ℝ) (e : Engine),
      0 ≤ e 0 → (flipBoost 0 dir u gamma e).1 = u)
    ∧ (∀ (s : InjectorMomentumBoltzmann) (x y z : ℝ) (e : Engine),
      s.velocity.f x y z = 0 → 0 ≤ s.temperature.f x y z → 0 ≤ e 3 →
      s.getMomentum x y z e =
        .val (xdimOfVec (boltzLocalSample (Real.sqrt (s.temperature.f x y z))
          s.velocity.direction e)))
    ∧ (∀ (s : InjectorMomentumJuttner) (x y z : ℝ) (fuel : ℕ) (e : Engine)
        (uax gamma x1f : ℝ) (e1 : Engine),
      s.velocity.f x y z = 0 → 0.1 ≤ s.temperature.f x y z →
      sobolLoop (s.temperature.f x y z) fuel 0 0 0 e = some (uax, gamma, x1f, e1) →
      0 ≤ e1 2 →
      s.getMomentum x y z fuel e =
        .val (xdimOfVec (juttnerAssemble uax (e1 0) (e1 1)
          s.velocity.direction))) := by
  refine ⟨flipBoost_beta_zero, ?_, ?_⟩
  · intro s x y z e hbeta htheta he
    simp only [InjectorMomentumBoltzmann.getMomentum, hbeta]
    rw [if_neg (not_lt.mpr htheta), if_neg (by norm_num : ¬((0:ℝ) ≤ -1 ∨ (1:ℝ) ≤ 0))]
    rw [flipBoost_beta_zero _ _ _ _ (by simpa [shiftN] using he)]
  · intro s x y z fuel e uax gamma x1f e1 hbeta htheta hloop he
    simp only [InjectorMomentumJuttner.getMomentum, hbeta]
    rw [if_neg (not_lt.mpr htheta), if_neg (by norm_num : ¬((0:ℝ) ≤ -1 ∨ (1:ℝ) ≤ 0))]
    simp only [hloop]
    rw [flipBoost_beta_zero _ _ _ _ (by simpa [shiftN] using he)]

/-- C8: for every position with `|beta| < 1`, the mean query of both the
Boltzmann and the Juttner samplers returns a vector whose transverse
components are exactly zero and whose boost-axis component is exactly
`gamma*beta = beta/sqrt(1 - beta^2)`, independent of the temperature
evaluator. -/
theorem relativistic_bulk_momentum_is_drift :
    (∀ (s : InjectorMomentumBoltzmann) (x y z : ℝ),
      -1 < s.velocity.f x y z → s.velocity.f x y z < 1 →
        (s.getBulkMomentum x y z).comp s.velocity.direction =
          s.velocity.f x y z /
            Real.sqrt (1 - s.velocity.f x y z * s.velocity.f x y z)
        ∧ (∀ i : Fin 3, i ≠ s.velocity.direction →
            (s.getBulkMomentum x y z).comp i = 0)
        ∧ (∀ t' : GetTemperature,
            InjectorMomentumBoltzmann.getBulkMomentum ⟨s.velocity, t'⟩ x y z =
              s.getBulkMomentum x y z))
    ∧ (∀ (s : InjectorMomentumJuttner) (x y z : ℝ),
      -1 < s.velocity.f x y z → s.velocity.f x y z < 1 →
        (s.getBulkMomentum x y z).comp s.velocity.direction =
          s.velocity.f x y z /
            Real.sqrt (1 - s.velocity.f x y z * s.velocity.f x y z)
        ∧ (∀ i : Fin 3, i ≠ s.velocity.direction →
            (s.getBulkMomentum x y z).comp i = 0)
        ∧ (∀ t' : GetTemperature,
            InjectorMomentumJuttner.getBulkMomentum ⟨s.velocity, t'⟩ x y z =
              s.getBulkMomentum x y z)) := by
  constructor
  · intro s x y z _ _
    refine ⟨?_, ?_, fun _ => rfl⟩
    · simp only [InjectorMomentumBoltzmann.getBulkMomentum, comp_xdimOfVec,
        Function.update_same]
      rw [one_div_mul_eq_div]
    · intro i hi
      simp only [InjectorMomentumBoltzmann.getBulkMomentum, comp_xdimOfVec]
      rw [Function.update_noteq hi]
  · intro s x y z _ _
    refine ⟨?_, ?_, fun _ => rfl⟩
    · simp only [InjectorMomentumJuttner.getBulkMomentum, comp_xdimOfVec,
        Function.update_same]
      rw [one_div_mul_eq_div]
    · intro i hi
      simp only [InjectorMomentumJuttner.getBulkMomentum, comp_xdimOfVec]
      rw [Function.update_noteq hi]

theorem relativistic_bulk_momentum_is_drift_witness :
    (-1 < (1:ℝ)/2) ∧ ((1:ℝ)/2 < 1) ∧
    ((InjectorMomentumBoltzmann.getBulkMomentum
        ⟨⟨fun _ _ _ => 1/2, 0⟩, ⟨fun _ _ _ => 42⟩⟩ 0 0 0).comp 0 =
      (1:ℝ)/2 / Real.sqrt (1 - 1/2 * (1/2))
     ∧ (∀ i : Fin 3, i ≠ 0 →
        (InjectorMomentumBoltzmann.getBulkMomentum
          ⟨⟨fun _ _ _ => 1/2, 0⟩, ⟨fun _ _ _ => 42⟩⟩ 0 0 0).comp i = 0)
     ∧ (∀ t' : GetTemperature,
        InjectorMomentumBoltzmann.getBulkMomentum ⟨⟨fun _ _ _ => 1/2, 0⟩, t'⟩ 0 0 0 =
          InjectorMomentumBoltzmann.getBulkMomentum
            ⟨⟨fun _ _ _ => 1/2, 0⟩, ⟨fun _ _ _ => 42⟩⟩ 0 0 0)) :=
  ⟨by norm_num, by norm_num,
    relativistic_bulk_momentum_is_drift.1
      ⟨⟨fun _ _ _ => 1/2, 0⟩, ⟨fun _ _ _ => 42⟩⟩ 0 0 0
      (by norm_num) (by norm_num)⟩

/-- C10: the mean query of the Boltzmann and Juttner samplers performs
no call-time validation: it never consults the temperature evaluator,
and at a position where the velocity evaluator yields `|beta| >= 1` it
does not abort but computes `(1/sqrt(1 - beta^2))*beta` anyway, which in
IEEE arithmetic yields a non-finite (infinite or NaN) boost-axis
component. -/
theorem bulk_momentum_skips_validation :
    (∀ (v : GetVelocity) (t t' : GetTemperature) (x y z : ℝ),
      InjectorMomentumBoltzmann.getBulkMomentum ⟨v, t⟩ x y z =
        InjectorMomentumBoltzmann.getBulkMomentum ⟨v, t'⟩ x y z
      ∧ InjectorMomentumJuttner.getBulkMomentum ⟨v, t⟩ x y z =
        InjectorMomentumJuttner.getBulkMomentum ⟨v, t'⟩ x y z)
    ∧ (∀ (beta : ℝ) (dir : Fin 3), 1 ≤ beta ∨ beta ≤ -1 →
      ¬ (bulkDriftExt beta dir dir).isFinite) := by
  constructor
  · intro v t t' x y z
    exact ⟨rfl, rfl⟩
  · intro beta dir h
    have h2 : 1 - beta * beta ≤ 0 := by
      rcases h with h | h
      · nlinarith
      · nlinarith
    simp only [bulkDriftExt, Function.update_same]
    rcases lt_or_eq_of_le h2 with hlt | heq
    · rw [show RealExt.esqrt (RealExt.fin (1 - beta * beta)) = RealExt.nan
        from by simp only [RealExt.esqrt]; rw [if_pos hlt]]
      simp [RealExt.einv, RealExt.emul, RealExt.isFinite]
    · rw [show RealExt.esqrt (RealExt.fin (1 - beta * beta)) = RealExt.fin 0
        from by rw [heq]; simp [RealExt.esqrt]]
      rw [show RealExt.einv (RealExt.fin 0) = RealExt.inf
        from by simp [RealExt.einv]]
      by_cases hb : beta = 0
      · simp [RealExt.emul, hb, RealExt.isFinite]
      · by_cases hpos : 0 < beta
        · simp [RealExt.emul, hb, hpos, RealExt.isFinite]
        · simp [RealExt.emul, hb, hpos, RealExt.isFinite]

theorem bulk_momentum_skips_validation_witness :
    ((1:ℝ) ≤ 1 ∨ (1:ℝ) ≤ -1) ∧ ¬ (bulkDriftExt 1 0 0).isFinite :=
  ⟨Or.inl le_rfl, bulk_momentum_skips_validation.2 1 0 (Or.inl le_rfl)⟩

theorem sobolLoop_inv (theta : ℝ) :
    ∀ (fuel : ℕ) (u g x1 : ℝ) (e : Engine) (res : ℝ × ℝ × ℝ × Engine),
      sobolLoop theta fuel u g x1 e = some res →
      (res = (u, g, x1, e) ∧ ¬ (u - g ≤ x1)) ∨
      (∃ j : ℕ,
        res.1 = -theta * Real.log (e (4*j) * e (4*j+1) * e (4*j+2)) ∧
        res.2.1 = Real.sqrt (1 + res.1 * res.1) ∧
        res.2.2.1 = theta * Real.log (e (4*j+3)) ∧
        res.2.2.2 = shiftN (4*(j+1)) e ∧
        res.2.2.1 < res.1 - res.2.1) := by
  intro fuel
  induction fuel with
  | zero =>
    intro u g x1 e res h
    simp only [sobolLoop] at h
    split_ifs at h with hc
    left
    exact ⟨(Option.some_inj.mp h).symm, hc⟩
  | succ n ih =>
    intro u g x1 e res h
    simp only [sobolLoop] at h
    split_ifs at h with hc
    · rcases ih _ _ _ _ _ h with ⟨heq, hacc⟩ | ⟨j, h1, h2, h3, h4, h5⟩
      · subst heq
        right
        refine ⟨0, ?_, rfl, ?_, ?_, not_le.mp hacc⟩
        · norm_num
        · norm_num
        · norm_num
      · right
        refine ⟨j + 1, ?_, h2, ?_, ?_, h5⟩
        · rw [h1]
          simp only [shiftN_apply]
          rw [show 4*j + 4 = 4*(j+1) from by ring,
            show 4*j + 1 + 4 = 4*(j+1) + 1 from by ring,
            show 4*j + 2 + 4 = 4*(j+1) + 2 from by ring]
        · rw [h3]
          simp only [shiftN_apply]
          rw [show 4*j + 3 + 4 = 4*(j+1) + 3 from by ring]
        · rw [h4, shiftN_shiftN]
          rw [show 4*(j+1) + 4 = 4*(j+1+1) from by ring]
    · left
      exact ⟨(Option.some_inj.mp h).symm, hc⟩

/-- C2: for every temperature `theta >= 0.1` and `|beta| < 1`, the
Juttner sampler's local-frame stage draws the boost-axis speed by the
Sobol rejection loop (`u_axis = -theta*ln(xi1*xi2*xi3)`,
`gamma = sqrt(1 + u_axis^2)`, `x1 = theta*ln(xi4)`, looping while
`u_axis - gamma <= x1`), then uses two fresh uniform draws `x1, x2` to
set the transverse components to `2*u_axis*sqrt(x1*(1-x1))*sin(2*pi*x2)`
and `2*u_axis*sqrt(x1*(1-x1))*cos(2*pi*x2)` and the boost-axis component
to `u_axis*(2*x1 - 1)`. -/
theorem juttner_local_stage_follows_sobol :
    ∀ (s : InjectorMomentumJuttner) (x y z : ℝ) (fuel : ℕ) (e : Engine)
      (uax gamma x1f : ℝ) (e1 : Engine),
      0.1 ≤ s.temperature.f x y z →
      -1 < s.velocity.f x y z → s.velocity.f x y z < 1 →
      sobolLoop (s.temperature.f x y z) fuel 0 0 0 e = some (uax, gamma, x1f, e1) →
      (∃ j : ℕ,
        uax = -(s.temperature.f x y z) *
          Real.log (e (4*j) * e (4*j+1) * e (4*j+2)) ∧
        gamma = Real.sqrt (1 + uax * uax) ∧
        x1f = s.temperature.f x y z * Real.log (e (4*j+3)) ∧
        e1 = shiftN (4*(j+1)) e ∧
        x1f < uax - gamma)
      ∧ s.getMomentum x y z fuel e =
          .val (xdimOfVec (flipBoost (s.velocity.f x y z) s.velocity.direction
            (juttnerSpread uax (e1 0) (e1 1) s.velocity.direction) gamma
            (shiftN 2 e1)).1) := by
  intro s x y z fuel e uax gamma x1f e1 ht hb1 hb2 hloop
  constructor
  · rcases sobolLoop_inv _ fuel 0 0 0 e _ hloop with ⟨_, hacc⟩ | ⟨j, h1, h2, h3, h4, h5⟩
    · exact absurd (by norm_num : (0:ℝ) - 0 ≤ 0) hacc
    · exact ⟨j, h1, h2, h3, h4, h5⟩
  · simp only [InjectorMomentumJuttner.getMomentum]
    rw [if_neg (not_lt.mpr ht),
      if_neg (by rintro (h | h) <;> linarith :
        ¬(s.velocity.f x y z ≤ -1 ∨ 1 ≤ s.velocity.f x y z))]
    simp only [hloop]
    rw [juttnerAssemble_eq_spread]

/-- A concrete draw stream on which the Sobol loop accepts after one
iteration: the first three draws are `exp(-1)` (so the proposed speed is
`3*theta`), the fourth is `exp(-16)` (so the acceptance threshold is
`-16*theta`). -/
def wEngineJ : Engine := fun k => if k = 3 then Real.exp (-16) else Real.exp (-1)

theorem sobolLoop_wEngineJ :
    sobolLoop 1 1 0 0 0 wEngineJ =
      some (3, Real.sqrt 10, -16, shiftN 4 wEngineJ) := by
  have h0 : wEngineJ 0 * wEngineJ 1 * wEngineJ 2 = Real.exp (-3) := by
    simp only [wEngineJ]
    norm_num [← Real.exp_add]
  have h3 : wEngineJ 3 = Real.exp (-16) := by simp [wEngineJ]
  have hs : Real.sqrt 10 < 19 := by
    nlinarith [Real.sq_sqrt (by norm_num : (0:ℝ) ≤ 10), Real.sqrt_nonneg 10]
  have hneg : ¬ ((3:ℝ) - Real.sqrt 10 ≤ -16) := by
    intro hcon
    linarith
  simp only [sobolLoop]
  rw [if_pos (by norm_num : (0:ℝ) - 0 ≤ 0), h0, h3, Real.log_exp, Real.log_exp]
  norm_num [hneg]

theorem juttner_local_stage_follows_sobol_witness :
    ((0.1:ℝ) ≤ 1) ∧ (-1 < (0:ℝ)) ∧ ((0:ℝ) < 1) ∧
    ((∃ j : ℕ,
        (3:ℝ) = -(1:ℝ) *
          Real.log (wEngineJ (4*j) * wEngineJ (4*j+1) * wEngineJ (4*j+2)) ∧
        Real.sqrt 10 = Real.sqrt (1 + 3 * 3) ∧
        (-16:ℝ) = 1 * Real.log (wEngineJ (4*j+3)) ∧
        shiftN 4 wEngineJ = shiftN (4*(j+1)) wEngineJ ∧
        (-16:ℝ) < 3 - Real.sqrt 10)
      ∧ InjectorMomentumJuttner.getMomentum
          ⟨⟨fun _ _ _ => 0, 0⟩, ⟨fun _ _ _ => 1⟩⟩ 0 0 0 1 wEngineJ =
          .val (xdimOfVec (flipBoost 0 0
            (juttnerSpread 3 (shiftN 4 wEngineJ 0) (shiftN 4 wEngineJ 1) 0)
            (Real.sqrt 10) (shiftN 2 (shiftN 4 wEngineJ))).1)) := by
  refine ⟨by norm_num, by norm_num, by norm_num, ?_⟩
  exact juttner_local_stage_follows_sobol
    ⟨⟨fun _ _ _ => 0, 0⟩, ⟨fun _ _ _ => 1⟩⟩ 0 0 0 1 wEngineJ
    3 (Real.sqrt 10) (-16) (shiftN 4 wEngineJ)
    (by norm_num) (by norm_num) (by norm_num) sobolLoop_wEngineJ

theorem beta_zero_transform_is_identity_witness :
    ((0:ℝ) ≤ 1) ∧
    (flipBoost 0 0 (fun _ => 5) 7 (fun _ => 1)).1 = (fun _ => 5) ∧
    InjectorMomentumBoltzmann.getMomentum
      ⟨⟨fun _ _ _ => 0, 0⟩, ⟨fun _ _ _ => 4⟩⟩ 0 0 0 (fun _ => 1) =
      .val (xdimOfVec (boltzLocalSample (Real.sqrt 4) 0 (fun _ => 1))) ∧
    InjectorMomentumJuttner.getMomentum
      ⟨⟨fun _ _ _ => 0, 0⟩, ⟨fun _ _ _ => 1⟩⟩ 0 0 0 1 wEngineJ =
      .val (xdimOfVec (juttnerAssemble 3 (shiftN 4 wEngineJ 0)
        (shiftN 4 wEngineJ 1) 0)) := by
  refine ⟨by norm_num, ?_, ?_, ?_⟩
  · exact beta_zero_transform_is_identity.1 0 (fun _ => 5) 7 (fun _ => 1)
      (by norm_num)
  · exact beta_zero_transform_is_identity.2.1
      ⟨⟨fun _ _ _ => 0, 0⟩, ⟨fun _ _ _ => 4⟩⟩ 0 0 0 (fun _ => 1)
      rfl (by norm_num) (by norm_num)
  · exact beta_zero_transform_is_identity.2.2
      ⟨⟨fun _ _ _ => 0, 0⟩, ⟨fun _ _ _ => 1⟩⟩ 0 0 0 1 wEngineJ
      3 (Real.sqrt 10) (-16) (shiftN 4 wEngineJ)
      rfl (by norm_num) sobolLoop_wEngineJ
      (by simp only [shiftN_apply, wEngineJ]; norm_num [Real.exp_nonneg])

/-- C6: constructing a GaussianFlux sampler aborts, before any sample
can be drawn, if and only if the configured central momentum along the
flux-normal axis (0, 1, or 2) is strictly negative. -/
theorem gaussianflux_construction_guards_axis_mean :
    ∀ (ux uy uz tx ty tz : ℝ) (axis dirn : ℤ),
      axis = 0 ∨ axis = 1 ∨ axis = 2 →
      ((∃ msg, mkInjectorMomentumGaussianFlux ux uy uz tx ty tz axis dirn =
          .error msg) ↔
        (if axis = 0 then ux else if axis = 1 then uy else uz) < 0) := by
  intro ux uy uz tx ty tz axis dirn h
  rcases h with h | h | h <;> subst h <;>
    simp only [mkInjectorMomentumGaussianFlux] <;> norm_num <;>
    split_ifs with hc <;> simp [hc]

theorem gaussianflux_construction_guards_axis_mean_witness :
    ((0:ℤ) = 0 ∨ (0:ℤ) = 1 ∨ (0:ℤ) = 2) ∧
    (∃ msg, mkInjectorMomentumGaussianFlux (-1) 0 0 0 0 0 0 1 = .error msg) ∧
    ¬ (∃ msg, mkInjectorMomentumGaussianFlux 0 0 0 0 0 0 0 1 = .error msg) := by
  refine ⟨Or.inl rfl, ?_, ?_⟩
  · exact (gaussianflux_construction_guards_axis_mean
      (-1) 0 0 0 0 0 0 1 (Or.inl rfl)).mpr (by norm_num)
  · intro hcontra
    have hneg := (gaussianflux_construction_guards_axis_mean
      0 0 0 0 0 0 0 1 (Or.inl rfl)).mp hcontra
    norm_num at hneg

/-- C7: for every position, the GaussianFlux mean query returns exactly
the three configured central values, applying neither the flux weighting
nor the `flux_direction` sign; when `flux_direction` is negative, the
sample's on-axis component has its sign flipped while the mean's does
not. -/
theorem gaussianflux_mean_reports_nominal_drift :
    ∀ (s : InjectorMomentumGaussianFlux) (x y z : ℝ),
      s.getBulkMomentum x y z = ⟨s.m_ux_m, s.m_uy_m, s.m_uz_m⟩
      ∧ (∀ (fuel innerFuel : ℕ) (e : Engine) (u0 : ℝ) (e1 : Engine),
          s.m_flux_direction < 0 →
          ((s.m_flux_normal_axis = 0 →
            generateGaussianFluxDist s.m_ux_m s.m_ux_th fuel innerFuel e =
              some (u0, e1) →
            s.getMomentum x y z fuel innerFuel e =
              .val ⟨-u0, randomNormal s.m_uy_m s.m_uy_th (e1 0),
                randomNormal s.m_uz_m s.m_uz_th (e1 1)⟩)
          ∧ (s.m_flux_normal_axis = 1 →
            generateGaussianFluxDist s.m_uy_m s.m_uy_th fuel innerFuel e =
              some (u0, e1) →
            s.getMomentum x y z fuel innerFuel e =
              .val ⟨randomNormal s.m_ux_m s.m_ux_th (e1 0), -u0,
                randomNormal s.m_uz_m s.m_uz_th (e1 1)⟩)
          ∧ (s.m_flux_normal_axis = 2 →
            generateGaussianFluxDist s.m_uz_m s.m_uz_th fuel innerFuel e =
              some (u0, e1) →
            s.getMomentum x y z fuel innerFuel e =
              .val ⟨randomNormal s.m_ux_m s.m_ux_th (e1 0),
                randomNormal s.m_uy_m s.m_uy_th (e1 1), -u0⟩))) := by
  intro s x y z
  refine ⟨rfl, ?_⟩
  intro fuel innerFuel e u0 e1 hdir
  refine ⟨?_, ?_, ?_⟩
  · intro hax hker
    simp only [InjectorMomentumGaussianFlux.getMomentum, hax, if_pos hdir]
    norm_num [shift, hker]
  · intro hax hker
    simp only [InjectorMomentumGaussianFlux.getMomentum, hax, if_pos hdir]
    norm_num [shift, hker]
  · intro hax hker
    simp only [InjectorMomentumGaussianFlux.getMomentum, hax, if_pos hdir]
    norm_num [shift, hker]

theorem gaussianflux_mean_reports_nominal_drift_witness :
    ((-1:ℤ) < 0) ∧ ((0:ℤ) = 0) ∧
    (InjectorMomentumGaussianFlux.getBulkMomentum ⟨1, 2, 3, 0, 5, 6, 0, -1⟩
      0 0 0 = ⟨1, 2, 3⟩) ∧
    (InjectorMomentumGaussianFlux.getMomentum ⟨1, 2, 3, 0, 5, 6, 0, -1⟩
      0 0 0 5 5 (fun _ => 0) =
      .val ⟨-1, randomNormal 2 5 0, randomNormal 3 6 0⟩) := by
  have hker : generateGaussianFluxDist 1 0 5 5 (fun _ => 0) =
      some (1, fun _ => 0) := by
    unfold generateGaussianFluxDist
    exact if_pos rfl
  refine ⟨by norm_num, rfl,
    (gaussianflux_mean_reports_nominal_drift ⟨1, 2, 3, 0, 5, 6, 0, -1⟩ 0 0 0).1,
    ?_⟩
  exact ((gaussianflux_mean_reports_nominal_drift ⟨1, 2, 3, 0, 5, 6, 0, -1⟩
    0 0 0).2 5 5 (fun _ => 0) 1 (fun _ => 0) (by norm_num)).1 rfl hker

/-- C9: for every stored kind tag among the eight recognized kinds, the
selector's sample and mean operations dispatch to exactly the
corresponding concrete sampler's operation with the same arguments; for
any unrecognized tag they report the fatal error
`InjectorMomentum: unknown type` and emit the last-resort fallback value
`(0,0,0)` alongside it, never a silent zero vector. -/
theorem selector_dispatches_on_kind_tag :
    ∀ (x y z : ℝ) (fuel innerFuel : ℕ) (e : Engine),
      (∀ (t : ℤ) (obj : InjObject), t < 0 ∨ 7 < t →
        InjectorMomentum.getMomentum ⟨t, obj⟩ x y z fuel innerFuel e =
          .abortFallback "InjectorMomentum: unknown type" ⟨0, 0, 0⟩)
      ∧ (∀ (t : ℤ) (obj : InjObject), t < 0 ∨ 7 < t →
        InjectorMomentum.getBulkMomentum ⟨t, obj⟩ x y z =
          .abortFallback "InjectorMomentum: unknown type" ⟨0, 0, 0⟩)
      ∧ (∀ c, InjectorMomentum.getMomentum ⟨0, .constant c⟩ x y z fuel innerFuel e =
          .val (c.getMomentum x y z e))
      ∧ (∀ g, InjectorMomentum.getMomentum ⟨1, .gaussian g⟩ x y z fuel innerFuel e =
          .val (g.getMomentum x y z e))
      ∧ (∀ g, InjectorMomentum.getMomentum ⟨2, .gaussianflux g⟩ x y z fuel innerFuel e =
          g.getMomentum x y z fuel innerFuel e)
      ∧ (∀ u, InjectorMomentum.getMomentum ⟨3, .uniform u⟩ x y z fuel innerFuel e =
          .val (u.getMomentum x y z e))
      ∧ (∀ b, InjectorMomentum.getMomentum ⟨4, .boltzmann b⟩ x y z fuel innerFuel e =
          b.getMomentum x y z e)
      ∧ (∀ j, InjectorMomentum.getMomentum ⟨5, .juttner j⟩ x y z fuel innerFuel e =
          j.getMomentum x y z fuel e)
      ∧ (∀ r, InjectorMomentum.getMomentum ⟨6, .radial_expansion r⟩ x y z fuel innerFuel e =
          .val (r.getMomentum x y z e))
      ∧ (∀ p, InjectorMomentum.getMomentum ⟨7, .parser p⟩ x y z fuel innerFuel e =
          .val (p.getMomentum x y z e))
      ∧ (∀ c, InjectorMomentum.getBulkMomentum ⟨0, .constant c⟩ x y z =
          .val (c.getBulkMomentum x y z))
      ∧ (∀ g, InjectorMomentum.getBulkMomentum ⟨1, .gaussian g⟩ x y z =
          .val (g.getBulkMomentum x y z))
      ∧ (∀ g, InjectorMomentum.getBulkMomentum ⟨2, .gaussianflux g⟩ x y z =
          .val (g.getBulkMomentum x y z))
      ∧ (∀ u, InjectorMomentum.getBulkMomentum ⟨3, .uniform u⟩ x y z =
          .val (u.getBulkMomentum x y z))
      ∧ (∀ b, InjectorMomentum.getBulkMomentum ⟨4, .boltzmann b⟩ x y z =
          .val (b.getBulkMomentum x y z))
      ∧ (∀ j, InjectorMomentum.getBulkMomentum ⟨5, .juttner j⟩ x y z =
          .val (j.getBulkMomentum x y z))
      ∧ (∀ r, InjectorMomentum.getBulkMomentum ⟨6, .radial_expansion r⟩ x y z =
          .val (r.getBulkMomentum x y z))
      ∧ (∀ p, InjectorMomentum.getBulkMomentum ⟨7, .parser p⟩ x y z =
          .val (p.getBulkMomentum x y z)) := by
  intro x y z fuel innerFuel e
  refine ⟨?_, ?_, ?_, ?_, ?_, ?_, ?_, ?_, ?_, ?_, ?_, ?_, ?_, ?_, ?_, ?_, ?_, ?_⟩
  · intro t obj h
    simp only [InjectorMomentum.getMomentum]
    split_ifs with h1 h2 h3 h4 h5 h6 h7 h8 <;>
      first
        | rfl
        | (exfalso; rcases h with h | h <;> omega)
  · intro t obj h
    simp only [InjectorMomentum.getBulkMomentum]
    split_ifs with h1 h2 h3 h4 h5 h6 h7 h8 <;>
      first
        | rfl
        | (exfalso; rcases h with h | h <;> omega)
  all_goals intro a
  all_goals rfl

theorem selector_dispatches_on_kind_tag_witness :
    ((8:ℤ) < 0 ∨ (7:ℤ) < 8) ∧
    InjectorMomentum.getMomentum ⟨8, .constant ⟨0, 0, 0⟩⟩ 0 0 0 1 1 (fun _ => 0) =
      .abortFallback "InjectorMomentum: unknown type" ⟨0, 0, 0⟩ ∧
    InjectorMomentum.getBulkMomentum ⟨8, .constant ⟨0, 0, 0⟩⟩ 0 0 0 =
      .abortFallback "InjectorMomentum: unknown type" ⟨0, 0, 0⟩ := by
  refine ⟨by norm_num, ?_, ?_⟩
  · exact (selector_dispatches_on_kind_tag 0 0 0 1 1 (fun _ => 0)).1 8
      (.constant ⟨0, 0, 0⟩) (by norm_num)
  · exact (selector_dispatches_on_kind_tag 0 0 0 1 1 (fun _ => 0)).2.1 8
      (.constant ⟨0, 0, 0⟩) (by norm_num)
